import Mathlib

/-!
Verification of the sst_tes RPC client and acquisition-lifecycle layer.

The definitions below are a shallow embedding of the Python source files
`sst_tes/rpc.py`, `sst_tes/tes.py` and `sst_tes/readable_tes.py`.
Pure functions become Lean functions; methods that talk to the remote
service become functions that take an explicit model of the remote
responder and return, next to their result, the list of observable
events (RPC calls, signal reads, sleeps, completion-handle operations)
they perform, in order.  Exceptions become `Except`-style results; when
a claim needs the events that happened before an exception, the event
trace is returned alongside the error.
-/

namespace SstTes

/-- Python values as they appear in RPC payloads.  Tuples and lists are
distinct constructors because Python's `==` never identifies a tuple
with a list — a distinction `JSONClientBase.formatMsg` depends on. -/
inductive PyVal where
  | pynone
  | pybool (b : Bool)
  | pyint (n : Int)
  | pystr (s : String)
  | pytuple (xs : List PyVal)
  | pylist (xs : List PyVal)
  | pydict (xs : List (String × PyVal))

/-- Python exceptions raised by the embedded code. -/
inductive PyErr where
  | keyError (k : String)
  | tesException (msg : String)
  | ioError (msg : String)
  | timeoutError (msg : String)
  | connectionError (msg : String)
  | jsonDecodeError (msg : String)

/-- `m` contains `sub` verbatim as a contiguous substring. -/
def strContains (m sub : String) : Prop :=
  ∃ pre post, m = pre ++ (sub ++ post)

theorem string_append_assoc (a b c : String) : a ++ b ++ c = a ++ (b ++ c) :=
  String.ext (by simp [String.data_append, List.append_assoc])

/- ------------------------------------------------------------------
Message codec: `JSONClientBase.formatMsg` (rpc.py lines 51-57).

    def formatMsg(self, method, *params, **kwargs):
        msg = {"method": method}
        if params is not None and params != []:
            msg["params"] = params
        if kwargs is not None and kwargs != {}:
            msg["kwargs"] = kwargs
        return json.dumps(msg).encode()

`params` is the tuple collected by `*params`; `kwargs` is the dict
collected by `**kwargs`.
------------------------------------------------------------------ -/

/-- The encoded request object: the `method` key is always present,
`params` and `kwargs` only when their guard in `formatMsg` fires. -/
structure Request where
  method : String
  params : Option PyVal
  kwargs : Option PyVal

/-- Python `v == []`: true exactly for an empty list value.  A tuple —
also the empty tuple — never equals a list. -/
def pyEqEmptyList : PyVal → Bool
  | .pylist [] => true
  | _ => false

/-- Python `v == {}`: true exactly for an empty dict value. -/
def pyEqEmptyDict : PyVal → Bool
  | .pydict [] => true
  | _ => false

/-- Python `v is None`. -/
def pyIsNone : PyVal → Bool
  | .pynone => true
  | _ => false

/-- `JSONClientBase.formatMsg`: `params` is the `*params` tuple,
`kwargs` the `**kwargs` dict. -/
def formatMsg (method : String) (params : PyVal) (kwargs : PyVal) : Request :=
  let msg : Request := { method := method, params := none, kwargs := none }
  let msg : Request :=
    if ¬ pyIsNone params ∧ ¬ pyEqEmptyList params then
      { msg with params := some params }
    else msg
  let msg : Request :=
    if ¬ pyIsNone kwargs ∧ ¬ pyEqEmptyDict kwargs then
      { msg with kwargs := some kwargs }
    else msg
  msg

/- ------------------------------------------------------------------
Decoded responses and `raiseOnFailure` (tes.py lines 24-31).

    def raiseOnFailure(f):
        def _inner(*args, **kwargs):
            response = f(*args, **kwargs)
            if not response["success"]:
                raise TESException(f"RPC failed with message {response['response']}")
            return response
        return _inner
------------------------------------------------------------------ -/

/-- A decoded RPC response: a success flag and the remote-supplied
result or failure text. -/
structure RPCResponse where
  success : Bool
  response : String

/-- The `raiseOnFailure` decorator applied to `f` at argument `x`. -/
def raiseOnFailure {α : Type} (f : α → RPCResponse) (x : α) : Except PyErr RPCResponse :=
  let response := f x
  if ¬ response.success then
    .error (.tesException ("RPC failed with message " ++ response.response))
  else
    .ok response

/- ------------------------------------------------------------------
Ownership resolver: `RPCInterface._get_comm_function` and
`RPCInterface._get_comm_tail` (rpc.py lines 28-43).

A device-tree node is modelled by the attributes the resolver probes:
an optional owned RPC client (`hasattr(node, "rpc")`) and an optional
parent (`node.parent`; every ophyd object carries the attribute, with
value `None` at the root, and `hasattr(None, "parent")` is false).
Clients are identified by a number.
------------------------------------------------------------------ -/

/-- A device-tree node: an optional owned RPC client and an optional
parent back-reference. -/
inductive DevNode where
  | mk (rpc : Option Nat) (parent : Option DevNode)

def DevNode.rpc : DevNode → Option Nat
  | .mk r _ => r

def DevNode.parent : DevNode → Option DevNode
  | .mk _ p => p

/-- `RPCInterface._get_comm_tail(parent)`: return `parent.rpc` when the
attribute exists; otherwise recurse on `parent.parent` when `parent`
has a `parent` attribute (every node does; `None` does not); otherwise
raise `IOError("No parent has an RPC Client")`.  The guard
`if parent is None` inside the recursive branch is unreachable because
`None` has no `parent` attribute. -/
def get_comm_tail : Option DevNode → Except PyErr Nat
  | none => .error (.ioError "No parent has an RPC Client")
  | some (.mk (some c) _) => .ok c
  | some (.mk none p) => get_comm_tail p

/-- `RPCInterface._get_comm_function`: the node's own client when it has
one, otherwise delegate to `_get_comm_tail(self.parent)`. -/
def get_comm_function : DevNode → Except PyErr Nat
  | .mk (some c) _ => .ok c
  | .mk none p => get_comm_tail p

/-- Modelled from the spec's words (section 4.4): `resolve(node)`
returns the node's client when it owns one, otherwise requires a
parent — failing when absent — and recurses on the parent.  `none`
stands for the NoReachableClient failure. -/
def resolveSpec : DevNode → Option Nat
  | .mk (some c) _ => some c
  | .mk none none => none
  | .mk none (some p) => resolveSpec p

/- ------------------------------------------------------------------
Stream-socket transport: `SocketClient.sendrcv` (rpc.py lines 68-75).

    def sendrcv(self, method, *params, **kwargs):
        msg = self.formatMsg(method, *params, **kwargs)
        s = socket.socket()
        s.connect((self.address, self.port))
        s.send(msg)
        m = json.loads(s.recv(1024).decode())
        s.close()
        return m

There is no try/finally: an exception raised by `connect`, `recv` or
`json.loads` propagates before `s.close()` is reached.  The
environment's behaviour for one call is an oracle `SockOutcome`.
------------------------------------------------------------------ -/

structure SocketClient where
  address : String
  port : Nat

/-- Observable socket-level events of one `SocketClient.sendrcv` call. -/
inductive SockEvent where
  | sockCreate
  | sockConnect (address : String) (port : Nat)
  | sockSend (msg : Request)
  | sockRecv
  | sockClose

/-- How the network behaves during one stream-socket call. -/
inductive SockOutcome where
  | connectFail (msg : String)
  | recvFail (msg : String)
  | decodeFail (msg : String)
  | ok (resp : PyVal)

/-- `SocketClient.sendrcv`, returning the events performed in order and
the result; the error paths stop where the Python exception is raised. -/
def socket_sendrcv (c : SocketClient) (method : String) (params kwargs : PyVal)
    (out : SockOutcome) : List SockEvent × Except PyErr PyVal :=
  let msg := formatMsg method params kwargs
  match out with
  | .connectFail e =>
      ([.sockCreate, .sockConnect c.address c.port], .error (.connectionError e))
  | .recvFail e =>
      ([.sockCreate, .sockConnect c.address c.port, .sockSend msg, .sockRecv],
       .error (.connectionError e))
  | .decodeFail e =>
      ([.sockCreate, .sockConnect c.address c.port, .sockSend msg, .sockRecv],
       .error (.jsonDecodeError e))
  | .ok resp =>
      ([.sockCreate, .sockConnect c.address c.port, .sockSend msg, .sockRecv, .sockClose],
       .ok resp)

/- ------------------------------------------------------------------
Reply-socket transport: `ZMQREQClient` (rpc.py lines 77-102).

    def __init__(self, address, port, timeout=5000):
        self.ctx = zmq.Context()
        ...
        self.addrstr = f"tcp://{address}:{port}"
        self.timeout = timeout

    def sendrcv(self, method, *params, **kwargs):
        msg = self.formatMsg(method, *params, **kwargs)
        s = self.ctx.socket(zmq.REQ)
        s.setsockopt(zmq.LINGER, 0)
        s.connect(self.addrstr)
        s.send(msg)
        if (s.poll(self.timeout) & zmq.POLLIN) != 0:
            m = s.recv_json()
            s.close()
            return m
        else:
            s.close()
            raise TimeoutError(f"ZMQ Communication with {self.addrstr} timed out after {self.timeout}ms")

The ZMQ context is created once per client instance, but every
`sendrcv` call creates a fresh REQ socket from it, connects, and closes
that socket on both exits.
------------------------------------------------------------------ -/

structure ZMQREQClient where
  address : String
  port : Nat
  timeout : Nat

/-- `self.addrstr = f"tcp://{address}:{port}"`. -/
def ZMQREQClient.addrstr (c : ZMQREQClient) : String :=
  "tcp://" ++ (c.address ++ (":" ++ toString c.port))

/-- Observable events of one `ZMQREQClient.sendrcv` call.  `zmqSocket`
is `self.ctx.socket(zmq.REQ)` — the creation of a new REQ socket, hence
of a new connection, for this call. -/
inductive ZMQEvent where
  | zmqSocket
  | zmqSetLinger (v : Nat)
  | zmqConnect (addr : String)
  | zmqSend (msg : Request)
  | zmqPoll (timeout : Nat)
  | zmqRecv
  | zmqClose

/-- The timeout message of rpc.py line 102, associated as built. -/
def zmqTimeoutMsg (c : ZMQREQClient) : String :=
  "ZMQ Communication with " ++ (c.addrstr ++ (" timed out after " ++ (toString c.timeout ++ "ms")))

/-- How the peer's reply behaves when the poll reports readability:
`s.recv_json()` either yields a decoded value or raises on a reply
that is not valid JSON. -/
inductive ZMQReply where
  | decodeFail (msg : String)
  | ok (resp : PyVal)

/-- `ZMQREQClient.sendrcv` with its environment oracles: `readable`
tells whether `s.poll(self.timeout) & zmq.POLLIN` is nonzero, and
`reply` how `s.recv_json()` behaves on the readable path.  There is no
try/finally: on the readable path the close runs only after
`recv_json` has returned, so an undecodable reply raises before
`s.close()` is reached and the per-call socket is left unclosed; on
the timeout path the close runs before the raise. -/
def zmq_sendrcv (c : ZMQREQClient) (method : String) (params kwargs : PyVal)
    (readable : Bool) (reply : ZMQReply) : List ZMQEvent × Except PyErr PyVal :=
  let msg := formatMsg method params kwargs
  if readable then
    match reply with
    | .ok resp =>
        ([.zmqSocket, .zmqSetLinger 0, .zmqConnect c.addrstr, .zmqSend msg,
          .zmqPoll c.timeout, .zmqRecv, .zmqClose], .ok resp)
    | .decodeFail e =>
        ([.zmqSocket, .zmqSetLinger 0, .zmqConnect c.addrstr, .zmqSend msg,
          .zmqPoll c.timeout, .zmqRecv],
         .error (.jsonDecodeError e))
  else
    ([.zmqSocket, .zmqSetLinger 0, .zmqConnect c.addrstr, .zmqSend msg,
      .zmqPoll c.timeout, .zmqClose],
     .error (.timeoutError (zmqTimeoutMsg c)))

/- ------------------------------------------------------------------
The TES acquisition-lifecycle device (tes.py, readable_tes.py).

The device's Python attributes and signals that the claims touch are
collected in `TESDevice`.  EPICS-backed filename signals
(`noise_filename`, `projector_filename`) are modelled as stored
strings: `set(v).wait()` stores `v` and a later `get()` reads it back.
The remote TES server is outside this repository; its behaviour during
one operation is an explicit oracle structure.
------------------------------------------------------------------ -/

/-- One observable event of a device operation, in program order. -/
inductive Event where
  | stateGet (v : String)
  | scanNumGet
  | printMsg (s : String)
  | rpcEv (method : String) (args : List PyVal) (kwargs : List (String × PyVal))
  | signalPut (name : String) (v : PyVal)
  | sleepFor (t : Nat)
  | setFinished (handle : Nat)

/-- The device-side state of `TESBase`/`TES` used by the claims.
Completion handles (`DeviceStatus` objects) are identified by the
counter `nextHandle`; allocating a handle is modelled by taking the
current counter value and incrementing it. -/
structure TESDevice where
  fileMode : String
  calFlagVal : Bool
  acquireTimeVal : Nat
  completionStatus : Option Nat
  nextHandle : Nat
  dataIndex : Nat
  rois : List (String × (PyVal × PyVal))
  noiseFilenameVal : String
  projectorFilenameVal : String
  lastNoiseFile : Option String
  lastProjectorFile : Option String
  pathVal : PyVal
  setFilenamePatternVal : Bool
  verbose : Bool
  scanPointStartVal : Int
  scanPointEndVal : Int
  lastTime : Int

/-- Oracle for the remote server during `stage()`: the current reading
of the remote `state` signal, the reading after a successful
`file_start` RPC, and the success flags of the RPCs involved. -/
structure StageRemote where
  state : String
  stateAfterFileStart : String
  fileStartOk : Bool
  scanStartOk : Bool
  calStartOk : Bool

/-- `TESBase._file_start` (tes.py lines 109-129) at its `stage()` call
sites, i.e. with `path=None` (so `path = self.path`) and `force=False`.
Returns the remote state after the call, the events in order, and the
success flag that `raiseOnFailure` tests (the third component is
`false` exactly when the wrapped call raises `TESException`). -/
def file_start_op (dev : TESDevice) (r : StageRemote) : StageRemote × List Event × Bool :=
  if r.state = "no_file" then
    ({ r with state := if r.fileStartOk then r.stateAfterFileStart else r.state },
     [.stateGet r.state,
      .rpcEv "file_start" [dev.pathVal]
        [("setFilenamePattern", .pybool dev.setFilenamePatternVal)]],
     r.fileStartOk)
  else
    (r, [.stateGet r.state, .printMsg "TES already has file open, not forcing!"], true)

/-- `TESBase._calibration_start` (tes.py lines 136-150) with
`scanexfiltrator = None`, its value after `__init__`: the provenance
arguments take their defaults and `scan_num.get()` is read for the
verbose print. -/
def calibration_start_op (dev : TESDevice) (r : StageRemote) : List Event × Bool :=
  ([.scanNumGet] ++
     (if dev.verbose then [.printMsg "start calibration scan"] else []) ++
     [.rpcEv "calibration_start"
       [.pystr "unnamed_motor", .pystr "index", .pyint (-1), .pystr "null"] []],
   r.calStartOk)

/-- `TESBase._scan_start` (tes.py lines 153-171) with
`scanexfiltrator = None`. -/
def scan_start_op (dev : TESDevice) (r : StageRemote) : List Event × Bool :=
  ([.rpcEv "scan_start"
      [.pystr "unnamed_motor", .pystr "index", .pyint (-1), .pystr "null"]
      [("extra", .pydict [("start_energy", .pyint (-1))])]],
   r.scanStartOk)

/-- `TES.stage` (readable_tes.py lines 47-67).  Resets the data-index
cursor, allocates a fresh completion handle into `_completion_status`,
opens the file when `file_mode = "start_stop"`, re-reads the remote
`state` and opens the file when it still says `"no_file"`, then starts
a calibration or a scan.  A `TESException` from a failing RPC aborts
the sequence (final component `false`); the events up to the raise are
kept.  The `_external_devices` scan and `super().stage()` belong to the
surrounding ophyd layer and perform no remote calls. -/
def stage_op (dev : TESDevice) (r : StageRemote) : TESDevice × StageRemote × List Event × Bool :=
  let ev0 : List Event := if dev.verbose then [.printMsg "Staging TES"] else []
  let dev1 : TESDevice :=
    { dev with dataIndex := 0, completionStatus := some dev.nextHandle,
               nextHandle := dev.nextHandle + 1 }
  let stepA : StageRemote × List Event × Bool :=
    if dev1.fileMode = "start_stop" then file_start_op dev1 r else (r, [], true)
  match stepA with
  | (r1, trA, okA) =>
    if ¬ okA then (dev1, r1, ev0 ++ trA, false)
    else
      let stepB : StageRemote × List Event × Bool :=
        if r1.state = "no_file" then
          match file_start_op dev1 r1 with
          | (r2, tr, ok) => (r2, .stateGet r1.state :: tr, ok)
        else (r1, [.stateGet r1.state], true)
      match stepB with
      | (r2, trB, okB) =>
        if ¬ okB then (dev1, r2, ev0 ++ trA ++ trB, false)
        else
          let stepC : List Event × Bool :=
            if dev1.calFlagVal then calibration_start_op dev1 r2 else scan_start_op dev1 r2
          (dev1, r2, ev0 ++ trA ++ trB ++ stepC.1, stepC.2)

/-- `TESBase.trigger` (tes.py lines 274-280): allocates a fresh
`DeviceStatus`, takes the next point index from `_data_index`, spawns a
background thread running `_acquire(status, i)`, and returns the
status.  The result is the updated device, the handle of the returned
status, the point index handed to the thread, and the events of
`trigger` itself (the spawned thread's events are `acquire_op`).
`_completion_status` is not touched. -/
def trigger_op (dev : TESDevice) : TESDevice × Nat × Nat × List Event :=
  let ev0 : List Event := if dev.verbose then [.printMsg "Triggering TES"] else []
  let h := dev.nextHandle
  let i := dev.dataIndex
  ({ dev with nextHandle := dev.nextHandle + 1, dataIndex := dev.dataIndex + 1 },
   h, i, ev0)

/-- `TESBase._acquire` (tes.py lines 191-208) as executed by the
background thread for handle `h` and point index `i`, with
`scanexfiltrator = None` (so `val = i`).  `startTime` and `endTime` are
the remote timestamps returned by `scan_point_start` and
`scan_point_end`. -/
def acquire_op (dev : TESDevice) (h : Nat) (i : Nat) (startTime endTime : Int) :
    TESDevice × List Event :=
  ({ dev with scanPointStartVal := startTime, lastTime := startTime,
              scanPointEndVal := endTime },
   [.rpcEv "scan_point_start" [.pyint (i : Int)] [],
    .sleepFor dev.acquireTimeVal,
    .rpcEv "scan_point_end" [] [],
    .setFinished h])

/-- `TESBase.stop` (tes.py lines 282-284): when `_completion_status`
holds a handle, mark that handle finished; nothing else happens. -/
def stop_op (dev : TESDevice) : List Event :=
  match dev.completionStatus with
  | some h => [.setFinished h]
  | none => []

/- ------------------------------------------------------------------
Noise/projector calibration workflow (tes.py lines 210-264).
------------------------------------------------------------------ -/

/-- Oracle for the remote server during the calibration workflow:
successive `file_start` replies (success flag and returned filename)
are consumed in order; an exhausted queue answers a failure with an
empty filename.  The other flags are the success of the corresponding
RPCs. -/
structure CalibRemote where
  fileResponses : List (Bool × String)
  setNoiseOk : Bool
  setPulseOk : Bool
  makeProjOk : Bool

/-- Pop the next `file_start` reply from the oracle. -/
def CalibRemote.nextFile (r : CalibRemote) : (Bool × String) × CalibRemote :=
  match r.fileResponses with
  | [] => ((false, ""), r)
  | x :: rest => (x, { r with fileResponses := rest })

/-- The `file_start` RPC event issued by `take_noise`/`take_projectors`
(tes.py lines 216-221 and 243-248). -/
def takeFileStartEv (dev : TESDevice) : Event :=
  .rpcEv "file_start" [dev.pathVal]
    [("write_ljh", .pybool true), ("write_off", .pybool false),
     ("setFilenamePattern", .pybool dev.setFilenamePatternVal)]

/-- `TESBase.take_noise` (tes.py lines 210-225): switch to noise
triggers, set a 1 s exposure, call `file_start`, store the returned
filename in the `noise_filename` signal and `_last_noise_file`, and
return the `file_start` reply — whose success flag `raiseOnFailure`
then tests.  Note the filename is stored even when the reply reports
failure, because the decorator only sees the returned value. -/
def take_noise_op (dev : TESDevice) (r : CalibRemote) :
    TESDevice × CalibRemote × List Event × Bool :=
  let ev0 : Event := .rpcEv "set_noise_triggers" [] []
  if ¬ r.setNoiseOk then (dev, r, [ev0], false)
  else
    let dev1 : TESDevice := { dev with acquireTimeVal := 1 }
    let ev1 : Event := .signalPut "acquire_time" (.pyint 1)
    match r.nextFile with
    | ((ok, file), r1) =>
      ({ dev1 with noiseFilenameVal := file, lastNoiseFile := some file },
       r1,
       [ev0, ev1, takeFileStartEv dev1, .signalPut "noise_filename" (.pystr file)],
       ok)

/-- `TESBase.take_projectors` (tes.py lines 237-252): as `take_noise`
but with pulse triggers and the `projector_filename` signal. -/
def take_projectors_op (dev : TESDevice) (r : CalibRemote) :
    TESDevice × CalibRemote × List Event × Bool :=
  let ev0 : Event := .rpcEv "set_pulse_triggers" [] []
  if ¬ r.setPulseOk then (dev, r, [ev0], false)
  else
    let dev1 : TESDevice := { dev with acquireTimeVal := 1 }
    let ev1 : Event := .signalPut "acquire_time" (.pyint 1)
    match r.nextFile with
    | ((ok, file), r1) =>
      ({ dev1 with projectorFilenameVal := file, lastProjectorFile := some file },
       r1,
       [ev0, ev1, takeFileStartEv dev1, .signalPut "projector_filename" (.pystr file)],
       ok)

/-- `TESBase.make_projectors` (tes.py lines 254-259): read the two
filename signals and call the remote `make_projectors` with them as
the two positional arguments, noise file first. -/
def make_projectors_op (dev : TESDevice) (r : CalibRemote) : List Event × Bool :=
  let noise_file := dev.noiseFilenameVal
  let projector_file := dev.projectorFilenameVal
  ([.rpcEv "make_projectors" [.pystr noise_file, .pystr projector_file] []],
   r.makeProjOk)

/- ------------------------------------------------------------------
ROI table mutation: `TESBase.clear_roi` (tes.py lines 270-272).

    def clear_roi(self, label):
        self.rois.pop(label)
        return self.rpc.roi_set({label: (None, None)})

`dict.pop(label)` with no default raises `KeyError(label)` when the
label is absent, before the RPC line runs.
------------------------------------------------------------------ -/

/-- `TESBase.clear_roi`: the updated ROI table, the events, and either
the `roi_set` reply (`roiResp`, supplied by the remote oracle) or the
`KeyError`. -/
def clear_roi_op (dev : TESDevice) (label : String) (roiResp : PyVal) :
    TESDevice × List Event × Except PyErr PyVal :=
  match dev.rois.lookup label with
  | none => (dev, [], .error (.keyError label))
  | some _ =>
      ({ dev with rois := dev.rois.eraseP (fun kv => kv.1 == label) },
       [.rpcEv "roi_set" [.pydict [(label, .pytuple [.pynone, .pynone])]] []],
       .ok roiResp)

/- ------------------------------------------------------------------
Event predicates used by the claims.
------------------------------------------------------------------ -/

/-- The event is an RPC call of the given method. -/
def isRPCNamed (m : String) : Event → Bool
  | .rpcEv m' _ _ => m' == m
  | _ => false

/-- The event is a `scan_start` or `calibration_start` RPC call. -/
def isScanOrCalStartEv (e : Event) : Bool :=
  isRPCNamed "scan_start" e || isRPCNamed "calibration_start" e

/-- The ZMQ event is the creation of a new REQ socket. -/
def isZMQSocketCreate : ZMQEvent → Bool
  | .zmqSocket => true
  | _ => false

/-- The ZMQ event is the send of the request. -/
def isZMQSend : ZMQEvent → Bool
  | .zmqSend _ => true
  | _ => false

/-- The ZMQ event closes the per-call socket. -/
def isZMQClose : ZMQEvent → Bool
  | .zmqClose => true
  | _ => false

/-- The stream-socket event closes the connection. -/
def isSockClose : SockEvent → Bool
  | .sockClose => true
  | _ => false

/- ------------------------------------------------------------------
Claim theorems.
------------------------------------------------------------------ -/

/-- C2: the claim states that the encoded payload omits the `params`
key whenever the positional arguments are empty.  The code intends
this (`if params is not None and params != []`), but `params` is the
tuple collected by `*params`, and in Python a tuple — the empty tuple
included — never compares equal to the list literal `[]`, so the guard
is always true and an empty `params` is encoded as `"params": []`.
This theorem evaluates the embedded `formatMsg` at the failing input:
a call with no positional and no keyword arguments encodes a `params`
key holding the empty tuple, while `kwargs` (a dict, correctly compared
with `{}`) is omitted. -/
theorem c2_formatMsg_empty_params_is_encoded :
    (formatMsg "file_end" (.pytuple []) (.pydict [])).params = some (PyVal.pytuple []) ∧
    (formatMsg "file_end" (.pytuple []) (.pydict [])).kwargs = none := by
  exact ⟨rfl, rfl⟩

/-- C6: resolving the RPC client (`_get_comm_function`) returns the
node's own client when it owns one, otherwise the client of the
nearest ancestor owning one, and raises the
`IOError("No parent has an RPC Client")` condition exactly when neither
the node nor any ancestor owns a client, including when the parent
chain ends.  `resolveSpec` is the specification-side description of
that search; the theorem states that the code equals it. -/
theorem c6_get_comm_function_resolves (n : DevNode) :
    get_comm_function n =
      (resolveSpec n).elim
        (Except.error (PyErr.ioError "No parent has an RPC Client")) Except.ok := by
  have tail : ∀ p : Option DevNode,
      get_comm_tail p =
        (p.bind resolveSpec).elim
          (Except.error (PyErr.ioError "No parent has an RPC Client")) Except.ok := by
    intro p
    induction p using get_comm_tail.induct with
    | case1 => simp [get_comm_tail]
    | case2 c q => simp [get_comm_tail, resolveSpec]
    | case3 q ih =>
        rw [get_comm_tail]
        cases q with
        | none => simpa using ih
        | some q' => simpa [resolveSpec] using ih
  cases n with
  | mk r p =>
    cases r with
    | some c => simp [get_comm_function, resolveSpec]
    | none =>
      cases p with
      | none => simp [get_comm_function, get_comm_tail, resolveSpec]
      | some q => simpa [get_comm_function, resolveSpec] using tail (some q)

/-- C7: the `raiseOnFailure` wrapper raises if and only if the decoded
response has `success = false`; otherwise it returns the response
unchanged; and when it raises, the exception's message contains the
remote-supplied failure text verbatim. -/
theorem c7_raiseOnFailure_spec (α : Type) (f : α → RPCResponse) (x : α) :
    ((∃ e, raiseOnFailure f x = .error e) ↔ (f x).success = false) ∧
    ((f x).success = true → raiseOnFailure f x = .ok (f x)) ∧
    ((f x).success = false →
      ∃ m, raiseOnFailure f x = .error (.tesException m) ∧ strContains m (f x).response) := by
  unfold raiseOnFailure
  cases h : (f x).success with
  | false =>
      refine ⟨by simp [h], by simp [h], fun _ => ?_⟩
      refine ⟨"RPC failed with message " ++ (f x).response, by simp [h], ?_⟩
      refine ⟨"RPC failed with message ", "", ?_⟩
      exact String.ext (by simp [String.data_append])
  | true => simp [h]

/-- Witness for C7: a failing response raises with the remote text
inside the message; a succeeding response is returned unchanged. -/
theorem c7_raiseOnFailure_witness :
    (raiseOnFailure (fun _ : Unit => ⟨true, "ok"⟩) () = .ok ⟨true, "ok"⟩) ∧
    (∃ m, raiseOnFailure (fun _ : Unit => ⟨false, "file not open"⟩) () =
        .error (.tesException m) ∧ strContains m "file not open") := by
  refine ⟨(c7_raiseOnFailure_spec Unit (fun _ => ⟨true, "ok"⟩) ()).2.1 rfl, ?_⟩
  exact (c7_raiseOnFailure_spec Unit (fun _ => ⟨false, "file not open"⟩) ()).2.2 rfl

/-- C4 counterexample: the claim states that no new connection is
opened per call on the reply-socket transport.  The code of
`ZMQREQClient.sendrcv` executes `s = self.ctx.socket(zmq.REQ)` and
`s.connect(self.addrstr)` on every call: at this concrete call the
trace contains exactly one new-socket creation, not zero. -/
theorem c4_zmq_new_socket_per_call :
    ((zmq_sendrcv ⟨"localhost", 4000, 5000⟩ "commCheck"
        (.pytuple []) (.pydict []) true (.ok .pynone)).1.countP isZMQSocketCreate = 1) ∧
    ¬ ((zmq_sendrcv ⟨"localhost", 4000, 5000⟩ "commCheck"
        (.pytuple []) (.pydict []) true (.ok .pynone)).1.countP isZMQSocketCreate = 0) := by
  exact ⟨rfl, by simp [zmq_sendrcv, isZMQSocketCreate]⟩

/-- C4 amended: what persists across calls of one `ZMQREQClient`
instance is the ZMQ context (`self.ctx`, made once in `__init__`) and
the connection descriptor; each `sendrcv` call opens exactly one fresh
REQ socket and connects it to the instance's address.  That per-call
socket is closed before the call returns on the successful-reply path
and before the raise on the timeout path; but there is no try/finally,
so a reply that polls readable yet is not decodable JSON raises out of
`recv_json` before `s.close()` is reached, leaving the per-call socket
unclosed. -/
theorem c4_zmq_socket_lifecycle (c : ZMQREQClient) (method : String)
    (params kwargs : PyVal) (readable : Bool) (reply : ZMQReply) :
    ((zmq_sendrcv c method params kwargs readable reply).1.countP isZMQSocketCreate = 1) ∧
    (match readable, reply with
     | true, .ok r =>
         (zmq_sendrcv c method params kwargs readable reply).1.getLast? =
           some ZMQEvent.zmqClose ∧
         (zmq_sendrcv c method params kwargs readable reply).2 = .ok r
     | true, .decodeFail e =>
         (zmq_sendrcv c method params kwargs readable reply).1.countP isZMQClose = 0 ∧
         (zmq_sendrcv c method params kwargs readable reply).2 =
           .error (.jsonDecodeError e)
     | false, _ =>
         (zmq_sendrcv c method params kwargs readable reply).1.getLast? =
           some ZMQEvent.zmqClose ∧
         (zmq_sendrcv c method params kwargs readable reply).2 =
           .error (.timeoutError (zmqTimeoutMsg c))) := by
  cases readable <;> cases reply <;>
    simp [zmq_sendrcv, isZMQSocketCreate, isZMQClose, List.countP_cons]

/-- C5 counterexample: the claim states the TCP connection of a
stream-socket call is closed before the call returns or raises on
every error path.  `SocketClient.sendrcv` has no try/finally: at this
concrete call, when `recv` fails the raised exception propagates with
no close event in the trace. -/
theorem c5_socket_not_closed_on_recv_failure :
    (socket_sendrcv ⟨"localhost", 4000⟩ "commCheck" (.pytuple []) (.pydict [])
        (.recvFail "connection reset by peer")).1.countP isSockClose = 0 := by
  rfl

/-- C5 amended: the stream-socket transport closes its per-call
connection before returning only on the success path; on every error
path (connection failure, receive failure, undecodable response) the
exception propagates without the socket being closed. -/
theorem c5_socket_close_success_only (c : SocketClient) (method : String)
    (params kwargs : PyVal) (out : SockOutcome) :
    (match out with
     | .ok r =>
         (socket_sendrcv c method params kwargs out).1.getLast? = some SockEvent.sockClose ∧
         (socket_sendrcv c method params kwargs out).2 = .ok r
     | _ =>
         (socket_sendrcv c method params kwargs out).1.countP isSockClose = 0 ∧
         ∃ e, (socket_sendrcv c method params kwargs out).2 = .error e) := by
  cases out <;> simp [socket_sendrcv, isSockClose]

/-- C9: when no response becomes readable within the configured
timeout, the reply-socket call fails with the `TimeoutError` whose
message carries the peer address and the configured timeout value; the
socket close is the last event before the raise; and the request is
sent exactly once — no retry. -/
theorem c9_zmq_timeout_behaviour (c : ZMQREQClient) (method : String)
    (params kwargs : PyVal) (reply : ZMQReply) :
    ((zmq_sendrcv c method params kwargs false reply).2 =
        .error (.timeoutError (zmqTimeoutMsg c))) ∧
    strContains (zmqTimeoutMsg c) c.address ∧
    strContains (zmqTimeoutMsg c) (toString c.timeout) ∧
    ((zmq_sendrcv c method params kwargs false reply).1.getLast? = some ZMQEvent.zmqClose) ∧
    ((zmq_sendrcv c method params kwargs false reply).1.countP isZMQSend = 1) := by
  refine ⟨rfl, ?_, ?_, rfl, rfl⟩
  · refine ⟨"ZMQ Communication with " ++ "tcp://",
      (":" ++ toString c.port) ++ (" timed out after " ++ (toString c.timeout ++ "ms")), ?_⟩
    exact String.ext (by simp [zmqTimeoutMsg, ZMQREQClient.addrstr, String.data_append])
  · refine ⟨"ZMQ Communication with " ++ (ZMQREQClient.addrstr c ++ " timed out after "),
      "ms", ?_⟩
    exact String.ext (by simp [zmqTimeoutMsg, String.data_append])

/-- Looking up a key that is absent from the key column of an
association list yields `none`. -/
theorem lookup_eq_none_of_not_mem_keys {α : Type} (l : List (String × α)) (k : String)
    (h : k ∉ l.map Prod.fst) : l.lookup k = none := by
  induction l with
  | nil => rfl
  | cons kv t ih =>
    obtain ⟨k1, v1⟩ := kv
    simp only [List.map_cons, List.mem_cons, not_or] at h
    have hb : (k == k1) = false := by
      simp only [beq_eq_false_iff_ne, ne_eq]
      exact h.1
    simp only [List.lookup, hb]
    exact ih h.2

/-- Removing the entry of `k` from an association list with distinct
keys makes a later lookup of `k` fail. -/
theorem lookup_eraseP_self {α : Type} (l : List (String × α)) (k : String)
    (hnd : (l.map Prod.fst).Nodup) :
    (l.eraseP (fun kv => kv.1 == k)).lookup k = none := by
  induction l with
  | nil => rfl
  | cons kv t ih =>
    obtain ⟨k1, v1⟩ := kv
    simp only [List.map_cons, List.nodup_cons] at hnd
    by_cases hk : k1 = k
    · subst hk
      rw [List.eraseP_cons_of_pos (by simp)]
      exact lookup_eq_none_of_not_mem_keys t k1 hnd.1
    · have hb : (k == k1) = false := by
        simp only [beq_eq_false_iff_ne, ne_eq]
        exact fun e => hk e.symm
      have hb' : (k1 == k) = false := by
        simp only [beq_eq_false_iff_ne, ne_eq]
        exact hk
      rw [List.eraseP_cons_of_neg (by simp [hb'])]
      simp only [List.lookup, hb]
      exact ih hnd.2

/-- C10: with distinct ROI labels (a Python dict cannot hold
duplicates), `clear_roi(label)` on an absent label raises
`KeyError(label)` before any remote call — the event trace is empty
and the local ROI table unchanged — while on a present label it
removes the label locally (a later lookup fails) and issues exactly
one `roi_set` RPC call mapping that label to `(None, None)`. -/
theorem c10_clear_roi_spec (dev : TESDevice) (label : String) (roiResp : PyVal)
    (hnd : (dev.rois.map Prod.fst).Nodup) :
    (dev.rois.lookup label = none →
      (clear_roi_op dev label roiResp).1 = dev ∧
      (clear_roi_op dev label roiResp).2.1 = [] ∧
      (clear_roi_op dev label roiResp).2.2 = .error (.keyError label)) ∧
    (dev.rois.lookup label ≠ none →
      ((clear_roi_op dev label roiResp).1.rois.lookup label = none) ∧
      (clear_roi_op dev label roiResp).2.1 =
        [.rpcEv "roi_set" [.pydict [(label, .pytuple [.pynone, .pynone])]] []] ∧
      (clear_roi_op dev label roiResp).2.2 = .ok roiResp) := by
  cases hl : dev.rois.lookup label with
  | none =>
      refine ⟨fun _ => ?_, fun hne => absurd rfl hne⟩
      simp [clear_roi_op, hl]
  | some v =>
      refine ⟨fun h0 => by simp [hl] at h0, fun _ => ⟨?_, ?_, ?_⟩⟩
      · show (clear_roi_op dev label roiResp).1.rois.lookup label = none
        simp only [clear_roi_op, hl]
        exact lookup_eraseP_self dev.rois label hnd
      · simp [clear_roi_op, hl]
      · simp [clear_roi_op, hl]

/-- A concrete device for the closed instances: the ROI table holds the
default `tfy` region of `TESBase.__init__`. -/
def devRoi : TESDevice :=
  { fileMode := "continuous", calFlagVal := false, acquireTimeVal := 1,
    completionStatus := none, nextHandle := 0, dataIndex := 0,
    rois := [("tfy", (.pyint 0, .pyint 1200))],
    noiseFilenameVal := "", projectorFilenameVal := "",
    lastNoiseFile := none, lastProjectorFile := none,
    pathVal := .pystr "/nsls2/data/sst/ucal", setFilenamePatternVal := false,
    verbose := false, scanPointStartVal := 0, scanPointEndVal := 0, lastTime := 0 }

/-- Witness for C10: clearing the present label `tfy` empties its entry
and issues the single `roi_set(label -> (None, None))` call; clearing
the absent label `mca` raises `KeyError` with no remote call and the
table untouched. -/
theorem c10_clear_roi_witness :
    (((clear_roi_op devRoi "tfy" .pynone).1.rois.lookup "tfy" = none) ∧
      (clear_roi_op devRoi "tfy" .pynone).2.1 =
        [.rpcEv "roi_set" [.pydict [("tfy", .pytuple [.pynone, .pynone])]] []] ∧
      (clear_roi_op devRoi "tfy" .pynone).2.2 = .ok .pynone) ∧
    ((clear_roi_op devRoi "mca" .pynone).1 = devRoi ∧
      (clear_roi_op devRoi "mca" .pynone).2.1 = [] ∧
      (clear_roi_op devRoi "mca" .pynone).2.2 = .error (.keyError "mca")) := by
  constructor
  · exact (c10_clear_roi_spec devRoi "tfy" .pynone (by simp [devRoi])).2 (by simp [devRoi])
  · exact (c10_clear_roi_spec devRoi "mca" .pynone (by simp [devRoi])).1 (by simp [devRoi])

/-- C8: after `take_noise` and `take_projectors` have completed with
successful `file_start` replies carrying filenames `nf` and `pf`, the
subsequent `make_projectors` call passes exactly two positional
arguments to the remote projector-building method: first the filename
returned by `take_noise`'s `file_start`, then the one returned by
`take_projectors`' `file_start`, in that order. -/
theorem c8_make_projectors_args (dev : TESDevice) (r : CalibRemote)
    (nf pf : String) (rest : List (Bool × String))
    (hq : r.fileResponses = (true, nf) :: (true, pf) :: rest)
    (hn : r.setNoiseOk = true) (hp : r.setPulseOk = true) :
    (take_noise_op dev r).2.2.2 = true ∧
    (take_projectors_op (take_noise_op dev r).1 (take_noise_op dev r).2.1).2.2.2 = true ∧
    (make_projectors_op
        (take_projectors_op (take_noise_op dev r).1 (take_noise_op dev r).2.1).1
        (take_projectors_op (take_noise_op dev r).1 (take_noise_op dev r).2.1).2.1).1 =
      [Event.rpcEv "make_projectors" [.pystr nf, .pystr pf] []] := by
  simp [take_noise_op, take_projectors_op, make_projectors_op, CalibRemote.nextFile,
    hq, hn, hp]

/-- Witness for C8 at concrete filenames. -/
theorem c8_make_projectors_witness :
    (make_projectors_op
        (take_projectors_op
          (take_noise_op devRoi
            ⟨[(true, "noise_240101.ljh"), (true, "proj_240101.ljh")], true, true, true⟩).1
          (take_noise_op devRoi
            ⟨[(true, "noise_240101.ljh"), (true, "proj_240101.ljh")], true, true, true⟩).2.1).1
        (take_projectors_op
          (take_noise_op devRoi
            ⟨[(true, "noise_240101.ljh"), (true, "proj_240101.ljh")], true, true, true⟩).1
          (take_noise_op devRoi
            ⟨[(true, "noise_240101.ljh"), (true, "proj_240101.ljh")], true, true, true⟩).2.1).2.1).1 =
      [Event.rpcEv "make_projectors"
        [.pystr "noise_240101.ljh", .pystr "proj_240101.ljh"] []] :=
  (c8_make_projectors_args devRoi
    ⟨[(true, "noise_240101.ljh"), (true, "proj_240101.ljh")], true, true, true⟩
    "noise_240101.ljh" "proj_240101.ljh" [] rfl rfl rfl).2.2

/-- C3: staging with `file_mode = "start_stop"` and a remote `state`
initially `"no_file"` — where a successful `file_start` leaves the
remote state no longer `"no_file"` — issues exactly one `file_start`
RPC call, before any `scan_start` or `calibration_start` RPC call;
staging with `file_mode = "continuous"` and a remote state already
open issues zero `file_start` RPC calls. -/
theorem c3_stage_file_start_calls (dev dev' : TESDevice) (r r' : StageRemote)
    (h1 : dev.fileMode = "start_stop") (h2 : r.state = "no_file")
    (h3 : r.fileStartOk = true) (h4 : r.stateAfterFileStart ≠ "no_file")
    (h5 : dev'.fileMode = "continuous") (h6 : r'.state ≠ "no_file") :
    (∃ args kws pre suf,
      (stage_op dev r).2.2.1 = pre ++ Event.rpcEv "file_start" args kws :: suf ∧
      (∀ e ∈ pre, isRPCNamed "file_start" e = false ∧ isScanOrCalStartEv e = false) ∧
      (∀ e ∈ suf, isRPCNamed "file_start" e = false)) ∧
    ((stage_op dev' r').2.2.1.countP (isRPCNamed "file_start") = 0) := by
  constructor
  · refine ⟨[dev.pathVal], [("setFilenamePattern", PyVal.pybool dev.setFilenamePatternVal)],
      (if dev.verbose then [Event.printMsg "Staging TES"] else []) ++
        [Event.stateGet "no_file"],
      [Event.stateGet r.stateAfterFileStart] ++
        (if dev.calFlagVal then
          [Event.scanNumGet] ++
            (if dev.verbose then [Event.printMsg "start calibration scan"] else []) ++
            [Event.rpcEv "calibration_start"
              [.pystr "unnamed_motor", .pystr "index", .pyint (-1), .pystr "null"] []]
        else
          [Event.rpcEv "scan_start"
            [.pystr "unnamed_motor", .pystr "index", .pyint (-1), .pystr "null"]
            [("extra", .pydict [("start_energy", .pyint (-1))])]]),
      ?_, ?_, ?_⟩
    · cases hv : dev.verbose <;> cases hc : dev.calFlagVal <;>
        simp [stage_op, file_start_op, calibration_start_op, scan_start_op,
          h1, h2, h3, h4, hv, hc]
    · intro e he
      cases hv : dev.verbose <;> simp [hv] at he <;>
        first
        | (subst he; exact ⟨rfl, rfl⟩)
        | (rcases he with he | he <;> subst he <;> exact ⟨rfl, rfl⟩)
    · intro e he
      cases hv : dev.verbose <;> cases hc : dev.calFlagVal <;>
        simp [hv, hc] at he <;>
        rcases he with he | he | he | he <;> (try subst he) <;> rfl
  · cases hv : dev'.verbose <;> cases hc : dev'.calFlagVal <;>
      simp [stage_op, file_start_op, calibration_start_op, scan_start_op,
        h5, h6, hv, hc, isRPCNamed, isScanOrCalStartEv]

/-- A start-stop-mode device for the closed instances. -/
def devStartStop : TESDevice :=
  { devRoi with fileMode := "start_stop" }

/-- A remote whose state reads `"no_file"` and whose successful
`file_start` leaves it reading `"file_open"`. -/
def remNoFile : StageRemote :=
  ⟨"no_file", "file_open", true, true, true⟩

/-- A remote whose state already reads `"file_open"`. -/
def remOpen : StageRemote :=
  ⟨"file_open", "file_open", true, true, true⟩

/-- Witness for C3 at the concrete devices and remotes. -/
theorem c3_stage_file_start_witness :
    (∃ args kws pre suf,
      (stage_op devStartStop remNoFile).2.2.1 =
        pre ++ Event.rpcEv "file_start" args kws :: suf ∧
      (∀ e ∈ pre, isRPCNamed "file_start" e = false ∧ isScanOrCalStartEv e = false) ∧
      (∀ e ∈ suf, isRPCNamed "file_start" e = false)) ∧
    ((stage_op devRoi remOpen).2.2.1.countP (isRPCNamed "file_start") = 0) :=
  c3_stage_file_start_calls devStartStop devRoi remNoFile remOpen
    rfl rfl rfl (by decide) rfl (by decide)

/-- The device right after `stage()` on an already-open file: its
`_completion_status` holds the handle allocated at stage time
(handle 0 here), and the next allocated handle will be 1. -/
def stagedDev : TESDevice :=
  (stage_op devRoi remOpen).1

/-- C1 counterexample: the claim states that calling `stop()` while
the handle returned by a single `trigger()` call is outstanding marks
*that same* handle finished.  In the code, `trigger()` returns a fresh
`DeviceStatus` that is never stored in `_completion_status`, while
`stop()` finishes `_completion_status` — the handle made by `stage()`.
Concretely: after staging, `trigger()` returns handle 1, but `stop()`
emits a finish event for handle 0 only, so the finish event for the
trigger's handle never occurs. -/
theorem c1_stop_wrong_handle_counterexample :
    (trigger_op stagedDev).2.1 = 1 ∧
    stop_op (trigger_op stagedDev).1 = [Event.setFinished 0] ∧
    Event.setFinished (trigger_op stagedDev).2.1 ∉ stop_op (trigger_op stagedDev).1 := by
  refine ⟨rfl, rfl, ?_⟩
  have hstop : stop_op (trigger_op stagedDev).1 = [Event.setFinished 0] := rfl
  have hh : (trigger_op stagedDev).2.1 = 1 := rfl
  rw [hstop, hh]
  simp

/-- C1 amended: the background `_acquire` routine finishes the handle
returned by `trigger()` only after the `scan_point_start` RPC call has
returned, the exposure sleep of `acquire_time` has elapsed and the
`scan_point_end` RPC call has returned — every trace prefix containing
the finish event contains all three, and the finish event is last;
`stop()` immediately finishes the handle stored in
`_completion_status` (the one allocated by `stage()`, which is not the
handle `trigger()` returned), emitting nothing but that single finish
event. -/
theorem c1_acquire_finish_order_and_stop (dev : TESDevice) (h i : Nat) (st et : Int)
    (dev2 : TESDevice) (h0 : Nat) (hc : dev2.completionStatus = some h0) :
    (∀ n : Nat,
      Event.setFinished h ∈ (acquire_op dev h i st et).2.take n →
        (Event.rpcEv "scan_point_start" [.pyint (i : Int)] []
            ∈ (acquire_op dev h i st et).2.take n ∧
         Event.sleepFor dev.acquireTimeVal ∈ (acquire_op dev h i st et).2.take n ∧
         Event.rpcEv "scan_point_end" [] [] ∈ (acquire_op dev h i st et).2.take n)) ∧
    ((acquire_op dev h i st et).2.getLast? = some (Event.setFinished h)) ∧
    stop_op dev2 = [Event.setFinished h0] := by
  refine ⟨?_, rfl, by simp [stop_op, hc]⟩
  intro n hmem
  rcases n with _ | _ | _ | _ | n <;> simp [acquire_op] at hmem ⊢

/-- Witness for C1 at a staged device: the full acquire trace contains
the three steps before the finish, the finish event is last, and
`stop()` on the staged device emits exactly the finish of handle 0. -/
theorem c1_acquire_finish_order_witness :
    (Event.rpcEv "scan_point_start" [.pyint 0] [] ∈ (acquire_op devRoi 1 0 100 101).2.take 4 ∧
     Event.sleepFor devRoi.acquireTimeVal ∈ (acquire_op devRoi 1 0 100 101).2.take 4 ∧
     Event.rpcEv "scan_point_end" [] [] ∈ (acquire_op devRoi 1 0 100 101).2.take 4) ∧
    ((acquire_op devRoi 1 0 100 101).2.getLast? = some (Event.setFinished 1)) ∧
    stop_op stagedDev = [Event.setFinished 0] := by
  have H := c1_acquire_finish_order_and_stop devRoi 1 0 100 101 stagedDev 0 rfl
  exact ⟨H.1 4 (by simp [acquire_op]), H.2.1, H.2.2⟩

end SstTes
